import Mathlib

/-!
Verification of the extraction-and-persistence pipeline of the
`web-scraper-demo` repository (src/src/scraper.py, src/src/database.py,
src/main.py) against its natural-language specification.

HTML is shallowly embedded as a tree of element/text nodes; BeautifulSoup
traversal primitives (`find_all`, `find`, `find_next`, `get_text(strip=True)`,
class-lambda matching) are modelled over that tree.  The two storage backends
are embedded as explicit state-passing functions: the PostgreSQL table as a
list of rows plus the set of unique indexes its DDL created, MongoDB as a list
of documents.  Timestamps are `Nat`; exogenous runtime failures (exceptions
thrown by the database driver for one record) are modelled by a Boolean
oracle on records.  All text processing is defined structurally over
`List Char` so that every definition evaluates inside the kernel.
-/

/-- Is `pat` a prefix of `l`?  (Structural, kernel-reducible.) -/
def prefixOfL : List Char → List Char → Bool
  | [], _ => true
  | _ :: _, [] => false
  | a :: as, b :: bs => a = b && prefixOfL as bs

/-- Does `hay` contain `pat` as a contiguous sublist?  Models Python's
`sub in s`. -/
def containsL (hay pat : List Char) : Bool :=
  match hay with
  | [] => prefixOfL pat []
  | _ :: rest => prefixOfL pat hay || containsL rest pat

/-- Python `sub in s` on strings. -/
def strContains (s sub : String) : Bool :=
  containsL s.data sub.data

/-- Python `s.startswith(pre)`. -/
def strStarts (s pre : String) : Bool :=
  prefixOfL pre.data s.data

/-- Strip leading and trailing whitespace (Python `str.strip()`, modelled for
ASCII whitespace). -/
def trimStr (s : String) : String :=
  String.mk (((s.data.dropWhile Char.isWhitespace).reverse.dropWhile Char.isWhitespace).reverse)

/-- Lower-case a string (Python `str.lower()`, modelled for ASCII letters —
the only letters the source's class keywords involve). -/
def lowerStr (s : String) : String :=
  String.mk (s.data.map (fun c =>
    if 65 ≤ c.toNat ∧ c.toNat ≤ 90 then Char.ofNat (c.toNat + 32) else c))

/-- Python slicing `s[:n]` by code points. -/
def takeStr (s : String) (n : Nat) : String :=
  String.mk (s.data.take n)

/-- Python `len(s)` in code points. -/
def strLen (s : String) : Nat :=
  s.data.length

/-- Split a character list at the first occurrence of `pat`, returning the
parts before and after it. -/
def splitFirstL : List Char → List Char → Option (List Char × List Char)
  | [], pat => if prefixOfL pat [] then some ([], []) else none
  | c :: rest, pat =>
      if prefixOfL pat (c :: rest) then some ([], (c :: rest).drop pat.length)
      else (splitFirstL rest pat).map (fun p => (c :: p.1, p.2))

/-- Split on runs of whitespace (how an HTML parser tokenizes the multi-valued
`class` attribute); `acc` holds the current word reversed. -/
def wordsGo : List Char → List Char → List String
  | [], acc => if acc.isEmpty then [] else [String.mk acc.reverse]
  | c :: rest, acc =>
      if Char.isWhitespace c then
        if acc.isEmpty then wordsGo rest [] else String.mk acc.reverse :: wordsGo rest []
      else wordsGo rest (c :: acc)

/-- A node of the parsed HTML document: an element with a tag name, an
attribute list and children, or a text node.  Mirrors the BeautifulSoup tree
that `BeautifulSoup(content, 'html.parser')` produces. -/
inductive Node where
  | elem (tag : String) (attrs : List (String × String)) (children : List Node)
  | text (s : String)

/-- Tag name of an element node, `none` for a text node. -/
def Node.tagOf : Node → Option String
  | .elem t _ _ => some t
  | .text _ => none

/-- First value of an attribute, `none` if absent (BeautifulSoup `tag.get`). -/
def Node.getAttr : Node → String → Option String
  | .elem _ attrs _, key => (attrs.find? (fun kv => kv.1 = key)).map (fun kv => kv.2)
  | .text _, _ => none

/-- The multi-valued `class` attribute, split on whitespace; an element
without a `class` attribute has no classes. -/
def Node.classes (n : Node) : List String :=
  match n.getAttr "class" with
  | none => []
  | some s => wordsGo s.data []

mutual

/-- All nodes strictly below `n`, in document (pre-order) order — the
`descendants` of a BeautifulSoup tag. -/
def Node.descendants : Node → List Node
  | .text _ => []
  | .elem _ _ cs => forestPreorder cs

/-- Pre-order listing of a forest: each root followed by its descendants. -/
def forestPreorder : List Node → List Node
  | [] => []
  | n :: ns => n :: Node.descendants n ++ forestPreorder ns

end

mutual

/-- The text strings contained in a node, in document order. -/
def Node.texts : Node → List String
  | .text s => [s]
  | .elem _ _ cs => forestTexts cs

/-- The text strings contained in a forest, in document order. -/
def forestTexts : List Node → List String
  | [] => []
  | n :: ns => Node.texts n ++ forestTexts ns

end

/-- BeautifulSoup `get_text(strip=True)`: every contained string is stripped,
whitespace-only strings are dropped, and the rest are concatenated. -/
def getTextStrip (n : Node) : String :=
  String.mk ((((n.texts).map (fun s => (trimStr s).data)).filter (fun s => ¬ s.isEmpty)).flatten)

/-- Model of `soup.find_all(pred)` over a whole parsed document (a forest of top-level
nodes): all matching nodes in document order. -/
def findAllDoc (doc : List Node) (p : Node → Bool) : List Node :=
  (forestPreorder doc).filter p

/-- Model of `tag.find(pred)`: the first matching descendant of a container, in
document order (the container itself is not considered). -/
def Node.findDesc (n : Node) (p : Node → Bool) : Option Node :=
  n.descendants.find? p

/-- BeautifulSoup matching of a callable `class_` filter: the predicate is
applied to each individual class of the tag, and a tag without classes never
matches (the source lambdas guard with `x and ...`). -/
def classAny (n : Node) (p : String → Bool) : Bool :=
  n.classes.any p

/-- Model of `class_=lambda x: x and kw in x.lower()` for a fixed lowercase keyword. -/
def classContainsKw (n : Node) (kw : String) : Bool :=
  classAny n (fun c => strContains (lowerStr c) kw)

/-- The product record (src/src/models.py `ProductData`).  Timestamps are
`Nat`; URLs are kept as strings (the claims quantify over well-formed URLs,
so pydantic's `HttpUrl` validation is the identity on the inputs considered).
Optional fields default to `none` and `scraped_at` to the extraction time, as
in the pydantic model. -/
structure ProductData where
  name : String
  tagline : String
  description : Option String := none
  url : Option String := none
  votes : Option Nat := none
  comments : Option Nat := none
  maker : Option String := none
  category : Option String := none
  launch_date : Option Nat := none
  image_url : Option String := none
  scraped_at : Nat
  source_url : String
deriving DecidableEq, Repr

/-- Per-page result envelope (src/src/models.py `ScrapingResult`). -/
structure ScrapingResult where
  success : Bool
  products : List ProductData
  total_count : Nat
  page_url : String
  scraped_at : Nat
  error_message : Option String := none
deriving DecidableEq, Repr

/-- Helper for `ProductHuntScraper._extract_number` (src/src/scraper.py:205-209):
`re.findall(r'\d+', text)` and the first run as an integer, else 0. -/
def firstDigitRun : List Char → Option (List Char)
  | [] => none
  | c :: rest =>
      if c.isDigit then some (c :: rest.takeWhile Char.isDigit) else firstDigitRun rest

/-- Digit characters to the number they denote. -/
def digitsToNat (cs : List Char) : Nat :=
  cs.foldl (fun n c => n * 10 + (c.toNat - 48)) 0

/-- Model of `_extract_number`: the first contiguous digit run in the text, or 0. -/
def extractNumber (s : String) : Nat :=
  match firstDigitRun s.data with
  | some ds => digitsToNat ds
  | none => 0

/-- Model of `urllib.parse.urljoin(base, href)` restricted to the shapes the scraper
feeds it: `href` starting with `/`.  A protocol-relative `//host/...` href
keeps only the base's scheme; otherwise the href replaces the base's whole
path/query/fragment after the authority. -/
def urljoinRootRel (base href : String) : String :=
  if strStarts href "//" then
    match splitFirstL base.data "://".data with
    | some (scheme, _) => String.mk scheme ++ ":" ++ href
    | none => href
  else
    match splitFirstL base.data "://".data with
    | some (scheme, rest) =>
        String.mk (scheme ++ "://".data ++ rest.takeWhile (fun c => c ≠ '/' ∧ c ≠ '?' ∧ c ≠ '#')) ++ href
    | none => href

/-- Stage-1 container filter (scraper.py:114):
`soup.find_all('div', {'data-test': 'product-item'})`. -/
def isProductItemDiv (n : Node) : Bool :=
  n.tagOf = some "div" && n.getAttr "data-test" = some "product-item"

/-- Stage-2 container filter (scraper.py:115):
`soup.find_all('div', class_=lambda x: x and 'product' in x.lower())`. -/
def isProductClassDiv (n : Node) : Bool :=
  n.tagOf = some "div" && classContainsKw n "product"

/-- Stage-3 container filter (scraper.py:119): `soup.find_all('article')`. -/
def isArticle (n : Node) : Bool :=
  n.tagOf = some "article"

/-- Stage-4 container filter (scraper.py:120): a `div` one of whose classes
contains one of the keywords `card`, `item`, `post` (lower-cased). -/
def isCardItemPostDiv (n : Node) : Bool :=
  n.tagOf = some "div" &&
    classAny n (fun c =>
      strContains (lowerStr c) "card" || strContains (lowerStr c) "item" ||
        strContains (lowerStr c) "post")

/-- Does the node have the given tag? -/
def hasTag (t : String) (n : Node) : Bool :=
  n.tagOf = some t

/-- Model of `ProductHuntScraper._extract_product_data` (src/src/scraper.py:135-203):
field-by-field tolerant extraction from one container; returns `none` exactly
when the extracted name is empty.  `now` is the extraction time that the
pydantic `scraped_at` default factory would record. -/
def extractProductData (item : Node) (sourceUrl : String) (now : Nat) : Option ProductData :=
  let nameElem :=
    match item.findDesc (hasTag "h3") with
    | some e => some e
    | none =>
      match item.findDesc (hasTag "h2") with
      | some e => some e
      | none =>
        match item.findDesc (fun n => n.tagOf = some "a" && classContainsKw n "name") with
        | some e => some e
        | none => item.findDesc (fun n => n.tagOf = some "div" && classContainsKw n "title")
  let name := match nameElem with | some e => getTextStrip e | none => ""
  let taglineElem :=
    match item.findDesc (hasTag "p") with
    | some e => some e
    | none =>
        item.findDesc (fun n => n.tagOf = some "div" &&
          (classContainsKw n "tagline" || classContainsKw n "description" ||
            classContainsKw n "subtitle"))
  let tagline := match taglineElem with | some e => getTextStrip e | none => ""
  let url : Option String :=
    match item.findDesc (fun n => n.tagOf = some "a" && (n.getAttr "href").isSome) with
    | none => none
    | some a =>
      match a.getAttr "href" with
      | none => none
      | some href =>
          if strStarts href "http" then some href
          else if strStarts href "/" then some (urljoinRootRel sourceUrl href)
          else none
  let votes : Nat :=
    match (match item.findDesc (fun n => n.tagOf = some "span" && classContainsKw n "vote") with
           | some e => some e
           | none => item.findDesc (fun n => n.tagOf = some "div" && classContainsKw n "vote")) with
    | some e => extractNumber (getTextStrip e)
    | none => 0
  let comments : Nat :=
    match item.findDesc (fun n => n.tagOf = some "span" && classContainsKw n "comment") with
    | some e => extractNumber (getTextStrip e)
    | none => 0
  let image_url : Option String :=
    match item.findDesc (hasTag "img") with
    | none => none
    | some img =>
      match img.getAttr "src" with
      | none => none
      | some src =>
          if src = "" then none
          else if strStarts src "http" then some src
          else if strStarts src "/" then some (urljoinRootRel sourceUrl src)
          else none
  if name = "" then none
  else some
    { name := name
      tagline := if tagline = "" then "No description available" else tagline
      url := url
      votes := some votes
      comments := some comments
      image_url := image_url
      scraped_at := now
      source_url := sourceUrl }

/-- Model of `ProductHuntScraper._parse_products` (src/src/scraper.py:109-133): the
cascading container search (`A or B`, then `C or D` if both empty), then
per-container extraction keeping only products with a non-empty name. -/
def parseProducts (doc : List Node) (sourceUrl : String) (now : Nat) : List ProductData :=
  let stage12 :=
    match findAllDoc doc isProductItemDiv with
    | [] => findAllDoc doc isProductClassDiv
    | l => l
  let items :=
    match stage12 with
    | [] =>
      match findAllDoc doc isArticle with
      | [] => findAllDoc doc isCardItemPostDiv
      | l => l
    | l => l
  items.filterMap (fun item =>
    match extractProductData item sourceUrl now with
    | some p => if p.name = "" then none else some p
    | none => none)

/-- Model of `ProductHuntScraper.scrape_page` (src/src/scraper.py:68-107).  The fetch
collaborator (`goto` + `wait_for_selector` + `content`) is a capability
`fetch : URL → Except message HTML`; any exception it raises is caught and
turned into a failed result carrying `str(e)`. -/
def scrapePage (fetch : String → Except String (List Node)) (now : Nat)
    (url : String) : ScrapingResult :=
  match fetch url with
  | .ok doc =>
      let ps := parseProducts doc url now
      { success := true, products := ps, total_count := ps.length, page_url := url
        scraped_at := now }
  | .error m =>
      { success := false, products := [], total_count := 0, page_url := url
        scraped_at := now, error_message := some m }

/-- Model of `ProductHuntScraper.scrape_multiple_pages` (src/src/scraper.py:211-233):
one result per URL, in order; `scrape_page` already absorbs its own failures,
and the loop's own handler would likewise append a failed result. -/
def scrapeMultiplePages (fetch : String → Except String (List Node)) (now : Nat)
    (urls : List String) : List ScrapingResult :=
  urls.map (scrapePage fetch now)


/-- Pair each element of a list with everything after it. -/
def withTails : List α → List (α × List α)
  | [] => []
  | x :: xs => (x, xs) :: withTails xs

/-- Each node of a forest paired with all nodes strictly after it in document
order — the `next_elements` chain BeautifulSoup's `find_next` walks.  Since
`forestPreorder` lists the whole document in that order (a node's own
descendants immediately after it), the tail of each occurrence is exactly the
rest of the pre-order listing. -/
def nodesWithTails (doc : List Node) : List (Node × List Node) :=
  withTails (forestPreorder doc)

/-- Is the node a heading of level 1-4 (`find_all(['h1','h2','h3','h4'])`)? -/
def isHeading14 (n : Node) : Bool :=
  n.tagOf = some "h1" || n.tagOf = some "h2" || n.tagOf = some "h3" || n.tagOf = some "h4"

/-- Is the node a `p` or `div` (`find_next(['p', 'div'])`)? -/
def isPOrDiv (n : Node) : Bool :=
  n.tagOf = some "p" || n.tagOf = some "div"

/-- Model of `RequestsScraper._parse_products_simple` (src/src/scraper.py:275-297),
loop body: for each of the first ten headings (paired with the nodes after it),
keep it only if its stripped text is longer than five characters, pairing it
with the text of the next following `p`/`div` truncated to 200 characters. -/
def simpleLoop (sourceUrl : String) (now : Nat) :
    List (Node × List Node) → List ProductData
  | [] => []
  | (t, tail) :: rest =>
      let name := getTextStrip t
      if 5 < strLen name then
        let description :=
          match tail.find? isPOrDiv with
          | some nextElem => takeStr (getTextStrip nextElem) 200
          | none => ""
        { name := name
          tagline := if description = "" then "No description available" else description
          scraped_at := now
          source_url := sourceUrl : ProductData } :: simpleLoop sourceUrl now rest
      else simpleLoop sourceUrl now rest

/-- Model of `RequestsScraper._parse_products_simple` (src/src/scraper.py:275-297):
`titles = soup.find_all(['h1','h2','h3','h4'])`, then the loop over
`titles[:10]`. -/
def parseProductsSimple (doc : List Node) (sourceUrl : String) (now : Nat) :
    List ProductData :=
  simpleLoop sourceUrl now
    (((nodesWithTails doc).filter (fun p => isHeading14 p.1)).take 10)

/-- The two storage backends the factory knows. -/
inductive BackendKind where
  | postgresql
  | mongodb
deriving DecidableEq, Repr

/-- Model of `DatabaseFactory.create_manager` (src/src/database.py:314-325): selects a
backend by `db_type.lower()` and raises `ValueError` for any other tag. -/
def createManager (dbType : String) : Except String BackendKind :=
  if lowerStr dbType = "postgresql" then .ok .postgresql
  else if lowerStr dbType = "mongodb" then .ok .mongodb
  else .error ("不支持的数据库类型: " ++ dbType)

/-- Model of `ProductHuntCrawler.initialize` (src/main.py:27-38): the factory call and
`connect()` run inside a `try` whose handler logs a warning and sets
`db_manager = None`; `connectOk` models whether `connect()` succeeds for the
chosen backend. -/
def initializeDbManager (dbType : String) (connectOk : BackendKind → Bool) :
    Option BackendKind :=
  match createManager dbType with
  | .error _ => none
  | .ok b => if connectOk b then some b else none

/-- What a crawler run produced: the backend it ended up with (or `none` for
file-only mode) and the per-page results of the fetch loop. -/
structure CrawlerRunOutput where
  dbManager : Option BackendKind
  results : List ScrapingResult
deriving Repr

/-- Model of `ProductHuntCrawler.run` (src/main.py:103-125) up to the scraping step:
`initialize()` (which absorbs its own failures), then `scrape_urls` over every
URL unconditionally. -/
def crawlerRun (dbType : String) (connectOk : BackendKind → Bool)
    (fetch : String → Except String (List Node)) (now : Nat)
    (urls : List String) : CrawlerRunOutput :=
  { dbManager := initializeDbManager dbType connectOk
    results := scrapeMultiplePages fetch now urls }

/-- A row of the PostgreSQL `products` table as `_create_tables`
(src/src/database.py:68-101) declares it. -/
structure PgRow where
  id : Nat
  name : String
  tagline : Option String
  description : Option String
  url : Option String
  votes : Option Nat
  comments : Option Nat
  maker : Option String
  category : Option String
  launch_date : Option Nat
  image_url : Option String
  scraped_at : Nat
  source_url : String
  created_at : Nat
  updated_at : Nat
deriving DecidableEq, Repr

/-- The PostgreSQL database state: the table rows, the next `SERIAL` id, and
the column sets carrying a unique index or constraint (what `ON CONFLICT`
target inference consults). -/
structure PgState where
  rows : List PgRow
  nextId : Nat
  uniqueIndexes : List (List String)
deriving DecidableEq, Repr

/-- Model of `PostgreSQLManager._create_tables` (src/src/database.py:68-101): an empty
`products` table whose only unique index is the `SERIAL PRIMARY KEY`; the
three `CREATE INDEX` statements on `name`, `scraped_at` and `votes` are
non-unique, so no unique index on `(name, source_url)` exists. -/
def pgCreateTables : PgState :=
  { rows := [], nextId := 1, uniqueIndexes := [["id"]] }

/-- The `VARCHAR(n)` length limits of the `products` columns; PostgreSQL
raises `value too long for type character varying(n)` when an inserted value
exceeds them. -/
def pgRowTooLong (p : ProductData) : Bool :=
  255 < strLen p.name ||
    (match p.url with | some u => 500 < strLen u | none => false) ||
    (match p.maker with | some m => 255 < strLen m | none => false) ||
    (match p.category with | some c => 100 < strLen c | none => false) ||
    (match p.image_url with | some i => 500 < strLen i | none => false) ||
    500 < strLen p.source_url

/-- One `cursor.execute(insert_sql, product_dict)` of
`PostgreSQLManager.save_products` (src/src/database.py:114-139).  PostgreSQL
first infers the arbiter index for `ON CONFLICT (name, source_url)` — an
error if no unique or exclusion constraint covers those columns — then forms
the tuple (length checks), then inserts or, on a conflict with the arbiter
index, applies the `DO UPDATE SET` list: tagline, description, votes,
comments and `updated_at = CURRENT_TIMESTAMP` (all other columns keep their
stored values).  `fail` is an oracle for any other runtime error the driver
could raise for this record. -/
def pgExecUpsert (now : Nat) (fail : ProductData → Bool) (p : ProductData)
    (s : PgState) : Except String PgState :=
  if ¬ ["name", "source_url"] ∈ s.uniqueIndexes then
    .error "there is no unique or exclusion constraint matching the ON CONFLICT specification"
  else if fail p then
    .error "runtime error"
  else if pgRowTooLong p then
    .error "value too long for type character varying"
  else
    match s.rows.find? (fun r => r.name = p.name && r.source_url = p.source_url) with
    | some _ =>
        .ok { s with rows := s.rows.map (fun r =>
            if r.name = p.name && r.source_url = p.source_url then
              { r with tagline := some p.tagline, description := p.description,
                       votes := p.votes, comments := p.comments, updated_at := now }
            else r) }
    | none =>
        .ok { s with
          rows := s.rows ++
            [{ id := s.nextId, name := p.name, tagline := some p.tagline,
               description := p.description, url := p.url, votes := p.votes,
               comments := p.comments, maker := p.maker, category := p.category,
               launch_date := p.launch_date, image_url := p.image_url,
               scraped_at := p.scraped_at, source_url := p.source_url,
               created_at := now, updated_at := now }]
          nextId := s.nextId + 1 }

/-- The `for product in products: cursor.execute(...)` loop of
`PostgreSQLManager.save_products`: the first raised error aborts it. -/
def pgSaveLoop (now : Nat) (fail : ProductData → Bool) :
    List ProductData → PgState → Except String PgState
  | [], s => .ok s
  | p :: ps, s =>
      match pgExecUpsert now fail p s with
      | .ok s' => pgSaveLoop now fail ps s'
      | .error e => .error e

/-- Model of `PostgreSQLManager.save_products` (src/src/database.py:109-148): empty
input returns `True` untouched; otherwise the loop runs inside one
transaction, committed on success and **rolled back** (state unchanged) with
`False` on any exception. -/
def pgSaveProducts (now : Nat) (fail : ProductData → Bool)
    (products : List ProductData) (s : PgState) : Bool × PgState :=
  if products.isEmpty then (true, s)
  else
    match pgSaveLoop now fail products s with
    | .ok s' => (true, s')
    | .error _ => (false, s)

/-- Stable insertion into a list sorted by `key` descending. -/
def insertDescBy (key : α → Nat) (x : α) : List α → List α
  | [] => [x]
  | y :: ys => if key y ≤ key x then x :: y :: ys else y :: insertDescBy key x ys

/-- Stable sort by `key` descending (`ORDER BY scraped_at DESC` /
`sort("scraped_at", -1)`). -/
def sortDescBy (key : α → Nat) : List α → List α
  | [] => []
  | x :: xs => insertDescBy key x (sortDescBy key xs)

/-- The shared `limit` handling of both `get_products` implementations
(src/src/database.py:155-156 and 266-267): `if limit:` — the cap is applied
only when `limit` is a truthy value, so `None` and `0` both mean "no cap". -/
def applyLimit (limit : Option Nat) (l : List α) : List α :=
  match limit with
  | none => l
  | some n => if n = 0 then l else l.take n

/-- Model of `PostgreSQLManager.get_products` (src/src/database.py:150-168):
`SELECT * FROM products ORDER BY scraped_at DESC` with the truthy `LIMIT`. -/
def pgGetProducts (limit : Option Nat) (s : PgState) : List PgRow :=
  applyLimit limit (sortDescBy (fun r => r.scraped_at) s.rows)

/-- One `collection.update_one({"name":…, "source_url":…}, {"$set": doc},
upsert=True)` (src/src/database.py:248-253): the first document matching the
natural key has **all** its fields replaced by `doc`; with no match the
document is inserted. -/
def mongoUpsertOne (p : ProductData) (docs : List ProductData) : List ProductData :=
  match docs.find? (fun d => d.name = p.name && d.source_url = p.source_url) with
  | some _ =>
      let replaced := docs.foldl (fun (acc : List ProductData × Bool) d =>
        if ¬ acc.2 && d.name = p.name && d.source_url = p.source_url then
          (acc.1 ++ [p], true)
        else (acc.1 ++ [d], acc.2)) ([], false)
      replaced.1
  | none => docs ++ [p]

/-- The `for doc in documents: update_one(...)` loop of
`MongoDBManager.save_products` (src/src/database.py:231-260): each upsert is
its own operation with no surrounding transaction, so an exception (the
`fail` oracle) leaves the documents already written in place and the handler
returns `False`. -/
def mongoSaveLoop (fail : ProductData → Bool) :
    List ProductData → List ProductData → Bool × List ProductData
  | [], docs => (true, docs)
  | p :: ps, docs =>
      if fail p then (false, docs)
      else mongoSaveLoop fail ps (mongoUpsertOne p docs)

/-- Model of `MongoDBManager.save_products`: empty input returns `True`; otherwise the
per-document upsert loop. -/
def mongoSaveProducts (fail : ProductData → Bool) (products : List ProductData)
    (docs : List ProductData) : Bool × List ProductData :=
  if products.isEmpty then (true, docs)
  else mongoSaveLoop fail products docs

/-- Model of `MongoDBManager.get_products` (src/src/database.py:262-281):
`find().sort("scraped_at", -1)` with the truthy `limit`. -/
def mongoGetProducts (limit : Option Nat) (docs : List ProductData) : List ProductData :=
  applyLimit limit (sortDescBy (fun d => d.scraped_at) docs)

/-- The aggregate statistics both `get_stats` implementations project:
total count, distinct source URLs, latest `scraped_at`, mean votes. -/
structure DbStats where
  total_products : Nat
  unique_sources : Nat
  last_scraped : Option Nat
  avg_votes : Option Rat
deriving DecidableEq, Repr

/-- Greatest element of a list, `none` when empty (`MAX(...)` / `$max`). -/
def maxOfList (l : List Nat) : Option Nat :=
  l.foldl (fun acc x =>
    match acc with
    | none => some x
    | some m => some (Nat.max m x)) none

/-- Model of `AVG` / `$avg` over an optional-valued column: the mean of the non-null
values, `NULL` when there are none. -/
def avgOfVotes (l : List (Option Nat)) : Option Rat :=
  let vs := l.filterMap id
  if vs.isEmpty then none
  else some ((vs.foldl (fun a b => a + b) 0 : Nat) / (vs.length : Rat))

/-- Model of `PostgreSQLManager.get_stats` (src/src/database.py:170-188): the single
aggregate row (present even over an empty table). -/
def pgGetStats (s : PgState) : DbStats :=
  { total_products := s.rows.length
    unique_sources := (s.rows.map (fun r => r.source_url)).dedup.length
    last_scraped := maxOfList (s.rows.map (fun r => r.scraped_at))
    avg_votes := avgOfVotes (s.rows.map (fun r => r.votes)) }

/-- Model of `MongoDBManager.get_stats` (src/src/database.py:283-312): the `$group`
pipeline produces no document over an empty collection (the method then
returns `{}`), hence the `Option`. -/
def mongoGetStats (docs : List ProductData) : Option DbStats :=
  if docs.isEmpty then none
  else some
    { total_products := docs.length
      unique_sources := (docs.map (fun d => d.source_url)).dedup.length
      last_scraped := maxOfList (docs.map (fun d => d.scraped_at))
      avg_votes := avgOfVotes (docs.map (fun d => d.votes)) }

/-- The no-failure oracle: no driver-level exception occurs. -/
def noFail : ProductData → Bool := fun _ => false

/-! ### Concrete inputs used by the claim theorems -/

/-- A record as the extractor would produce it from the §8 scenario page. -/
def recV1 : ProductData :=
  { name := "Widget X", tagline := "T1", description := some "D1",
    url := some "https://a.example/p1", votes := some 10, comments := some 3,
    scraped_at := 1, source_url := "https://example.test/" }

/-- A re-extraction of the same product — same natural key
`(name, source_url)`, different mutable field values. -/
def recV2 : ProductData :=
  { name := "Widget X", tagline := "T2", description := some "D2",
    url := some "https://b.example/p2", votes := some 25, comments := some 7,
    scraped_at := 2, source_url := "https://example.test/" }

/-- First record of a two-record batch. -/
def recA : ProductData :=
  { name := "A product", tagline := "ta", scraped_at := 3,
    source_url := "https://example.test/" }

/-- Second record of a two-record batch, on which the driver-failure oracle
fires. -/
def recB : ProductData :=
  { name := "B product", tagline := "tb", scraped_at := 4,
    source_url := "https://example.test/" }

/-- Failure oracle: the driver raises exactly on `recB`. -/
def failOnB : ProductData → Bool := fun p => p.name = "B product"

/-- Records with distinct natural keys and distinct scrape times, for the
ordering demonstrations. -/
def recS5 : ProductData :=
  { name := "N5", tagline := "t5", scraped_at := 5, source_url := "https://s.test/" }

/-- See `recS5`. -/
def recS9 : ProductData :=
  { name := "N9", tagline := "t9", scraped_at := 9, source_url := "https://s.test/" }

/-- A `products` table state carrying the unique index on
`(name, source_url)` that the `ON CONFLICT` clause of `save_products`
assumes (the DDL in `_create_tables` never creates it; this state exists only
to exercise the `DO UPDATE` branch). -/
def pgFixedSchema : PgState :=
  { rows := [], nextId := 1, uniqueIndexes := [["id"], ["name", "source_url"]] }

/-- The §8 scenario page: one product container with a level-3 heading
"Widget X", a paragraph, an anchor with a root-relative href, and a
votes-classed span. -/
def c8doc : List Node :=
  [.elem "div" [("data-test", "product-item")]
    [.elem "h3" [] [.text "Widget X"],
     .elem "p" [] [.text "Makes widgets fast"],
     .elem "a" [("href", "/w/1")] [.text "Widget X"],
     .elem "span" [("class", "votes")] [.text "42 votes"]]]

/-- A container whose first (and only) anchor has the relative href `../x`. -/
def c5doc : List Node :=
  [.elem "div" [("data-test", "product-item")]
    [.elem "h3" [] [.text "Gamma Tool"],
     .elem "a" [("href", "../x")] [.text "go"]]]

/-- A product container whose first anchor carries an absolute href. -/
def cAbsHref : Node :=
  .elem "div" [("data-test", "product-item")]
    [.elem "h3" [] [.text "Alpha"],
     .elem "a" [("href", "https://cdn.example/x")] [.text "go"]]

/-- A product container whose first anchor carries a root-relative href. -/
def cRootHref : Node :=
  .elem "div" [("data-test", "product-item")]
    [.elem "h3" [] [.text "Beta"],
     .elem "a" [("href", "/w/1")] [.text "go"]]

/-- A product container whose first anchor carries the relative href `../x`. -/
def cRelHref : Node :=
  .elem "div" [("data-test", "product-item")]
    [.elem "h3" [] [.text "Gamma"],
     .elem "a" [("href", "../x")] [.text "go"]]

/-- The record the extractor produces from `cAbsHref`. -/
def recAlpha : ProductData :=
  { name := "Alpha", tagline := "No description available",
    url := some "https://cdn.example/x", votes := some 0, comments := some 0,
    scraped_at := 0, source_url := "https://example.test/" }

/-- The record the extractor produces from `cRootHref`. -/
def recBeta : ProductData :=
  { name := "Beta", tagline := "No description available",
    url := some "https://example.test/w/1", votes := some 0, comments := some 0,
    scraped_at := 0, source_url := "https://example.test/" }

/-- The record the extractor produces from `cRelHref`. -/
def recGamma : ProductData :=
  { name := "Gamma", tagline := "No description available",
    url := none, votes := some 0, comments := some 0,
    scraped_at := 0, source_url := "https://example.test/" }

/-- A page with headings and text but none of the four container shapes the
cascade recognizes. -/
def c7doc : List Node :=
  [.elem "section" [("class", "hero")]
    [.elem "h1" [] [.text "Welcome"],
     .elem "span" [("class", "plain")] [.text "nothing to see"]],
   .text "loose text"]

/-- A page for the degraded strategy: a long heading followed by a
whitespace-only paragraph. -/
def c9doc : List Node :=
  [.elem "h2" [] [.text "A long heading"],
   .elem "p" [] [.text "   "]]

/-- A fetch collaborator that fails with the message "boom" on the second of
three URLs and yields an empty page elsewhere. -/
def fetch3 : String → Except String (List Node) :=
  fun u => if u = "https://b.test/" then .error "boom" else .ok []

/-! ### Helper lemmas -/

/-- Inserting into a sorted list adds one element. -/
theorem insertDescBy_length (key : α → Nat) (x : α) (l : List α) :
    (insertDescBy key x l).length = l.length + 1 := by
  induction l with
  | nil => rfl
  | cons y ys ih =>
      unfold insertDescBy
      split
      · rfl
      · simp [ih]

/-- Sorting preserves length. -/
theorem sortDescBy_length (key : α → Nat) (l : List α) :
    (sortDescBy key l).length = l.length := by
  induction l with
  | nil => rfl
  | cons y ys ih => simp [sortDescBy, insertDescBy_length, ih]

/-! ### Claim theorems -/

/-- Claim C1 — the code contradicts it for the PostgreSQL backend.  Against
the schema `_create_tables` itself creates there is no unique constraint on
`(name, source_url)`, so every `INSERT … ON CONFLICT (name, source_url)` is
rejected: both calls report failure and the table stays empty.  The MongoDB
backend behaves as the claim states: after the two calls exactly one
document is stored and its mutable fields are the second call's values. -/
theorem c1_pg_upsert_rejected_mongo_upserts :
    (pgSaveProducts 1 noFail [recV1] pgCreateTables).1 = false ∧
    (pgSaveProducts 2 noFail [recV2]
      (pgSaveProducts 1 noFail [recV1] pgCreateTables).2).1 = false ∧
    (pgSaveProducts 2 noFail [recV2]
      (pgSaveProducts 1 noFail [recV1] pgCreateTables).2).2.rows = [] ∧
    (mongoSaveProducts noFail [recV2] (mongoSaveProducts noFail [recV1] []).2).1 = true ∧
    (mongoSaveProducts noFail [recV2] (mongoSaveProducts noFail [recV1] []).2).2 = [recV2] := by
  decide

/-- Claim C8: extracting from the scenario page against
`sourceUrl = "https://example.test/"` yields exactly one record with
name "Widget X", tagline "Makes widgets fast", url
"https://example.test/w/1" and votes 42 (whatever the extraction time). -/
theorem c8_scenario_record (now : Nat) :
    parseProducts c8doc "https://example.test/" now =
      [{ name := "Widget X", tagline := "Makes widgets fast",
         url := some "https://example.test/w/1", votes := some 42, comments := some 0,
         scraped_at := now, source_url := "https://example.test/" }] := by
  rfl

/-- Claim C8, evaluated at a concrete extraction time. -/
theorem c8_scenario_record_witness :
    parseProducts c8doc "https://example.test/" 7 =
      [{ name := "Widget X", tagline := "Makes widgets fast",
         url := some "https://example.test/w/1", votes := some 42, comments := some 0,
         scraped_at := 7, source_url := "https://example.test/" }] :=
  c8_scenario_record 7

/-- Claim C5 is false on the code: for a first anchor with href `../x` the
href is not kept — the record's url is absent (`None`), because the
`if/elif` in `_extract_product_data` has no `else` branch. -/
theorem c5_relative_href_discarded :
    (parseProducts c5doc "https://example.test/" 0).map (fun r => r.url) = [none] ∧
    (parseProducts c5doc "https://example.test/" 0).map (fun r => r.url) ≠ [some "../x"] := by
  decide

/-- Claim C5 as amended, for every container: whenever the container's first
anchor with an href carries the href text `href` and extraction yields a
record, that record's url is `href` unchanged if it starts with "http",
the `urljoin` resolution against `sourceUrl` if it starts with "/", and
absent (`none`) for every other relative form. -/
theorem c5_amended_href_rule (item : Node) (src : String) (now : Nat)
    (a : Node) (href : String) (p : ProductData)
    (hfind : item.findDesc
      (fun n => n.tagOf = some "a" && (n.getAttr "href").isSome) = some a)
    (hhref : a.getAttr "href" = some href)
    (hext : extractProductData item src now = some p) :
    p.url = if strStarts href "http" then some href
            else if strStarts href "/" then some (urljoinRootRel src href)
            else none := by
  simp only [extractProductData, hfind, hhref] at hext
  split at hext
  · simp at hext
  · cases hext
    rfl

/-- Claim C5 as amended, exercised at three concrete containers covering the
three href shapes: an absolute href passes through, a root-relative href is
resolved against the source URL, and `../x` leaves the url absent. -/
theorem c5_amended_href_rule_witness :
    (recAlpha.url =
      if strStarts "https://cdn.example/x" "http" then some "https://cdn.example/x"
      else if strStarts "https://cdn.example/x" "/" then
        some (urljoinRootRel "https://example.test/" "https://cdn.example/x")
      else none) ∧
    (recBeta.url =
      if strStarts "/w/1" "http" then some "/w/1"
      else if strStarts "/w/1" "/" then
        some (urljoinRootRel "https://example.test/" "/w/1")
      else none) ∧
    (recGamma.url =
      if strStarts "../x" "http" then some "../x"
      else if strStarts "../x" "/" then
        some (urljoinRootRel "https://example.test/" "../x")
      else none) :=
  ⟨c5_amended_href_rule cAbsHref "https://example.test/" 0
      (.elem "a" [("href", "https://cdn.example/x")] [.text "go"])
      "https://cdn.example/x" recAlpha rfl rfl (by decide),
    c5_amended_href_rule cRootHref "https://example.test/" 0
      (.elem "a" [("href", "/w/1")] [.text "go"]) "/w/1" recBeta rfl rfl (by decide),
    c5_amended_href_rule cRelHref "https://example.test/" 0
      (.elem "a" [("href", "../x")] [.text "go"]) "../x" recGamma rfl rfl (by decide)⟩

/-- Claim C7: when no cascade stage finds a container — no
`data-test="product-item"` div, no div with a "product" class, no article,
and no div with a "card"/"item"/"post" class — extraction returns the empty
sequence (it is a total function, so it cannot fail). -/
theorem c7_no_container_empty (doc : List Node) (src : String) (now : Nat)
    (h1 : findAllDoc doc isProductItemDiv = [])
    (h2 : findAllDoc doc isProductClassDiv = [])
    (h3 : findAllDoc doc isArticle = [])
    (h4 : findAllDoc doc isCardItemPostDiv = []) :
    parseProducts doc src now = [] := by
  simp [parseProducts, h1, h2, h3, h4]

/-- Claim C7 at a concrete page with headings and text but no recognizable
container: all four stage searches are empty and extraction returns
nothing. -/
theorem c7_no_container_empty_witness :
    findAllDoc c7doc isProductItemDiv = [] ∧
    findAllDoc c7doc isProductClassDiv = [] ∧
    findAllDoc c7doc isArticle = [] ∧
    findAllDoc c7doc isCardItemPostDiv = [] ∧
    parseProducts c7doc "https://example.test/" 0 = [] :=
  ⟨rfl, rfl, rfl, rfl,
    c7_no_container_empty c7doc "https://example.test/" 0 rfl rfl rfl rfl⟩

/-- Claim C10: in both backends `get_products` guards the cap with a Python
truthiness test (`if limit:`), so `limit = 0` behaves exactly like passing no
limit and returns every stored row. -/
theorem c10_limit_zero_returns_all (s : PgState) (docs : List ProductData) :
    pgGetProducts (some 0) s = pgGetProducts none s ∧
    (pgGetProducts (some 0) s).length = s.rows.length ∧
    mongoGetProducts (some 0) docs = mongoGetProducts none docs ∧
    (mongoGetProducts (some 0) docs).length = docs.length := by
  refine ⟨rfl, ?_, rfl, ?_⟩
  · simp [pgGetProducts, applyLimit, sortDescBy_length]
  · simp [mongoGetProducts, applyLimit, sortDescBy_length]

/-- Claim C10 at a concrete one-row state. -/
theorem c10_limit_zero_returns_all_witness :
    pgGetProducts (some 0) pgFixedSchema = pgGetProducts none pgFixedSchema ∧
    (pgGetProducts (some 0) pgFixedSchema).length = pgFixedSchema.rows.length ∧
    mongoGetProducts (some 0) [recV1] = mongoGetProducts none [recV1] ∧
    (mongoGetProducts (some 0) [recV1]).length = [recV1].length :=
  c10_limit_zero_returns_all pgFixedSchema [recV1]

/-- Claim C2 is false on the code: for the unsupported tag "sqlite" the
factory does raise, but `ProductHuntCrawler.initialize` catches the exception
and continues with `db_manager = None`, and the run still fetches its one
URL — it does not fail fast before fetching. -/
theorem c2_invalid_tag_run_still_fetches :
    createManager "sqlite" = .error ("不支持的数据库类型: sqlite") ∧
    (crawlerRun "sqlite" (fun _ => true) (fun _ => .ok []) 0
        ["https://a.test/"]).dbManager = none ∧
    (crawlerRun "sqlite" (fun _ => true) (fun _ => .ok []) 0
        ["https://a.test/"]).results.length = 1 := by
  exact ⟨rfl, rfl, rfl⟩

/-- Claim C2 as amended: for every tag that is neither "postgresql" nor
"mongodb" (case-insensitively) the factory raises `ValueError`, but
`initialize` absorbs the exception, the crawler continues with no database
manager (file-only mode), and the fetch loop still visits every URL — the
invalid tag is not fatal. -/
theorem c2_amended_invalid_tag_degrades (dbType : String)
    (h1 : lowerStr dbType ≠ "postgresql") (h2 : lowerStr dbType ≠ "mongodb") :
    createManager dbType = .error ("不支持的数据库类型: " ++ dbType) ∧
    ∀ (connectOk : BackendKind → Bool) (fetch : String → Except String (List Node))
      (now : Nat) (urls : List String),
      (crawlerRun dbType connectOk fetch now urls).dbManager = none ∧
      (crawlerRun dbType connectOk fetch now urls).results.length = urls.length := by
  have hcm : createManager dbType = .error ("不支持的数据库类型: " ++ dbType) := by
    unfold createManager
    rw [if_neg h1, if_neg h2]
  refine ⟨hcm, ?_⟩
  intro connectOk fetch now urls
  constructor
  · simp [crawlerRun, initializeDbManager, hcm]
  · simp [crawlerRun, scrapeMultiplePages]

/-- Claim C2 as amended, at the concrete tag "sqlite". -/
theorem c2_amended_invalid_tag_degrades_witness :
    lowerStr "sqlite" ≠ "postgresql" ∧ lowerStr "sqlite" ≠ "mongodb" ∧
    createManager "sqlite" = .error ("不支持的数据库类型: sqlite") ∧
    (crawlerRun "sqlite" (fun _ => false) (fun _ => .error "net down") 5
        ["https://a.test/", "https://b.test/"]).dbManager = none ∧
    (crawlerRun "sqlite" (fun _ => false) (fun _ => .error "net down") 5
        ["https://a.test/", "https://b.test/"]).results.length = 2 := by
  have h := c2_amended_invalid_tag_degrades "sqlite" (by decide) (by decide)
  exact ⟨by decide, by decide, h.1,
    (h.2 (fun _ => false) (fun _ => .error "net down") 5
      ["https://a.test/", "https://b.test/"]).1,
    (h.2 (fun _ => false) (fun _ => .error "net down") 5
      ["https://a.test/", "https://b.test/"]).2⟩

/-- Claim C3 is false on the code: the very same call sequence (save one
record, then query and take stats) succeeds and stores one document under
MongoDB but fails and stores nothing under PostgreSQL, whose
`ON CONFLICT (name, source_url)` has no matching unique constraint in the
schema `_create_tables` creates. -/
theorem c3_backends_observably_differ :
    (pgSaveProducts 1 noFail [recV1] pgCreateTables).1 = false ∧
    pgGetProducts none (pgSaveProducts 1 noFail [recV1] pgCreateTables).2 = [] ∧
    (pgGetStats (pgSaveProducts 1 noFail [recV1] pgCreateTables).2).total_products = 0 ∧
    (mongoSaveProducts noFail [recV1] []).1 = true ∧
    (mongoGetProducts none (mongoSaveProducts noFail [recV1] []).2).length = 1 ∧
    (mongoGetStats (mongoSaveProducts noFail [recV1] []).2).map
        (fun st => st.total_products) = some 1 := by
  refine ⟨by decide, by decide, by decide, by decide, by decide, rfl⟩

/-- Claim C3 as amended: the backends are not observably equivalent.  On the
code's own schema the PostgreSQL save fails where MongoDB's succeeds; and
even granting the unique index the `ON CONFLICT` clause assumes, an upsert of
an existing key updates only tagline/description/votes/comments in
PostgreSQL — preserving `scraped_at` and `url` — while MongoDB's `$set`
replaces every field.  Both backends do share the `(name, source_url)` key
and return queries ordered by `scraped_at` descending. -/
theorem c3_amended_divergence_and_shared :
    (pgSaveProducts 1 noFail [recV1] pgCreateTables).1 = false ∧
    (mongoSaveProducts noFail [recV1] []).1 = true ∧
    (pgSaveProducts 2 noFail [recV2]
        (pgSaveProducts 1 noFail [recV1] pgFixedSchema).2).2.rows.map
          (fun r => (r.tagline, r.votes, r.scraped_at, r.url)) =
      [(some "T2", some 25, 1, some "https://a.example/p1")] ∧
    (mongoSaveProducts noFail [recV2] (mongoSaveProducts noFail [recV1] []).2).2.map
        (fun d => (d.tagline, d.votes, d.scraped_at, d.url)) =
      [("T2", some 25, 2, some "https://b.example/p2")] ∧
    (pgGetProducts none (pgSaveProducts 6 noFail [recS5, recS9] pgFixedSchema).2).map
        (fun r => r.name) = ["N9", "N5"] ∧
    (mongoGetProducts none (mongoSaveProducts noFail [recS5, recS9] []).2).map
        (fun d => d.name) = ["N9", "N5"] := by
  decide

/-- Claim C4 is false on the code for MongoDB: with a driver failure on the
second record of a two-record batch, the call does return failure, but the
first record has already been upserted and remains observable to a
subsequent query — the batch is not all-or-nothing. -/
theorem c4_mongo_partial_write :
    (mongoSaveProducts failOnB [recA, recB] []).1 = false ∧
    (mongoSaveProducts failOnB [recA, recB] []).2 = [recA] ∧
    mongoGetProducts none (mongoSaveProducts failOnB [recA, recB] []).2 = [recA] := by
  decide

/-- The `for doc in documents` loop of `MongoDBManager.save_products`
characterized: it reports success exactly when no record fails, and the
stored documents are those upserted before the first failure. -/
theorem mongoSaveLoop_spec (fail : ProductData → Bool) :
    ∀ (ps docs : List ProductData),
      mongoSaveLoop fail ps docs =
        (!(ps.any fail),
          (ps.takeWhile (fun p => !(fail p))).foldl
            (fun d p => mongoUpsertOne p d) docs) := by
  intro ps
  induction ps with
  | nil => intro docs; rfl
  | cons p ps ih =>
      intro docs
      unfold mongoSaveLoop
      by_cases h : fail p
      · simp [h]
      · simp [h, ih]

/-- Claim C4 as amended: PostgreSQL's batch is all-or-nothing — whenever
`save_products` reports failure the rollback leaves the table exactly as it
was — but MongoDB's is not: it reports failure exactly when some record's
upsert raises, and every record upserted before the first failing one stays
persisted. -/
theorem c4_amended_pg_atomic_mongo_leaky :
    (∀ (now : Nat) (fail : ProductData → Bool) (ps : List ProductData) (s : PgState),
        (pgSaveProducts now fail ps s).1 = true ∨ (pgSaveProducts now fail ps s).2 = s) ∧
    (∀ (fail : ProductData → Bool) (ps docs : List ProductData),
        (mongoSaveProducts fail ps docs).1 = !(ps.any fail) ∧
        (mongoSaveProducts fail ps docs).2 =
          (ps.takeWhile (fun p => !(fail p))).foldl
            (fun d p => mongoUpsertOne p d) docs) := by
  constructor
  · intro now fail ps s
    unfold pgSaveProducts
    split
    · exact Or.inl rfl
    · split
      · exact Or.inl rfl
      · exact Or.inr rfl
  · intro fail ps docs
    cases ps with
    | nil => exact ⟨rfl, rfl⟩
    | cons p ps => simp [mongoSaveProducts, mongoSaveLoop_spec]

/-- Claim C4 as amended, at concrete inputs: a PostgreSQL save against the
code's schema (which fails) leaves the state untouched, and the MongoDB
two-record batch with a failure on the second record keeps the first. -/
theorem c4_amended_pg_atomic_mongo_leaky_witness :
    ((pgSaveProducts 1 noFail [recV1] pgCreateTables).1 = true ∨
      (pgSaveProducts 1 noFail [recV1] pgCreateTables).2 = pgCreateTables) ∧
    ((mongoSaveProducts failOnB [recA, recB] []).1 = !([recA, recB].any failOnB) ∧
      (mongoSaveProducts failOnB [recA, recB] []).2 =
        ([recA, recB].takeWhile (fun p => !(failOnB p))).foldl
          (fun d p => mongoUpsertOne p d) []) :=
  ⟨c4_amended_pg_atomic_mongo_leaky.1 1 noFail [recV1] pgCreateTables,
    c4_amended_pg_atomic_mongo_leaky.2 failOnB [recA, recB] []⟩

/-- Lemma: `scrape_page` tags its result — success or failure — with the requested
URL. -/
theorem scrapePage_page_url (fetch : String → Except String (List Node))
    (now : Nat) (u : String) : (scrapePage fetch now u).page_url = u := by
  unfold scrapePage
  cases fetch u <;> rfl

/-- When the fetch collaborator raises, `scrape_page` absorbs the exception
into a failed result carrying its message. -/
theorem scrapePage_error (fetch : String → Except String (List Node))
    (now : Nat) (u m : String) (h : fetch u = Except.error m) :
    scrapePage fetch now u =
      { success := false, products := [], total_count := 0, page_url := u,
        scraped_at := now, error_message := some m } := by
  unfold scrapePage
  rw [h]

/-- Claim C6: the orchestrator returns exactly one outcome per input URL, in
input order; a URL whose fetch raises yields a `success = false` outcome
with the exception's (non-empty) message and no records, and the loop
continues — no single failure shortens the batch. -/
theorem c6_one_outcome_per_url (fetch : String → Except String (List Node))
    (now : Nat) (urls : List String)
    (hfetch : ∀ u m, fetch u = Except.error m → m ≠ "") :
    (scrapeMultiplePages fetch now urls).length = urls.length ∧
    (∀ i : Nat, ((scrapeMultiplePages fetch now urls)[i]?).map
        (fun r => r.page_url) = urls[i]?) ∧
    (∀ (i : Nat) (u m : String), urls[i]? = some u → fetch u = Except.error m →
      (scrapeMultiplePages fetch now urls)[i]? =
        some { success := false, products := [], total_count := 0, page_url := u,
               scraped_at := now, error_message := some m } ∧ m ≠ "") := by
  refine ⟨by simp [scrapeMultiplePages], ?_, ?_⟩
  · intro i
    simp only [scrapeMultiplePages, List.getElem?_map]
    cases urls[i]? with
    | none => rfl
    | some u => simp [scrapePage_page_url]
  · intro i u m hu hf
    refine ⟨?_, hfetch u m hf⟩
    simp [scrapeMultiplePages, List.getElem?_map, hu, scrapePage_error fetch now u m hf]

/-- Claim C6 at a concrete three-URL batch whose second fetch raises
"boom": three outcomes, the second a failure with that message. -/
theorem c6_one_outcome_per_url_witness :
    (scrapeMultiplePages fetch3 0
        ["https://a.test/", "https://b.test/", "https://c.test/"]).length = 3 ∧
    ((scrapeMultiplePages fetch3 0
        ["https://a.test/", "https://b.test/", "https://c.test/"])[1]?).map
      (fun r => r.page_url) = some "https://b.test/" ∧
    (scrapeMultiplePages fetch3 0
        ["https://a.test/", "https://b.test/", "https://c.test/"])[1]? =
      some { success := false, products := [], total_count := 0,
             page_url := "https://b.test/", scraped_at := 0,
             error_message := some "boom" } ∧
    ("boom" : String) ≠ "" := by
  have hf3 : ∀ u m, fetch3 u = Except.error m → m ≠ "" := by
    intro u m h
    unfold fetch3 at h
    by_cases hc : u = "https://b.test/"
    · rw [if_pos hc] at h
      cases h
      decide
    · rw [if_neg hc] at h
      cases h
  have h := c6_one_outcome_per_url fetch3 0
    ["https://a.test/", "https://b.test/", "https://c.test/"] hf3
  have h3 := h.2.2 1 "https://b.test/" "boom" rfl rfl
  exact ⟨h.1, (h.2.1 1).trans rfl, h3.1, h3.2⟩

/-- The degraded strategy as §4.1's (amended) words describe it: scan the
headings of levels 1-4 in document order, keep at most the first ten,
discard those whose trimmed text is five characters or fewer, and give each
survivor the trimmed text of the next following paragraph or div truncated
to 200 characters as its tagline — or the sentinel when no such element
follows or its trimmed text is empty. -/
def simpleStrategySpec (doc : List Node) (src : String) (now : Nat) : List ProductData :=
  ((((nodesWithTails doc).filter (fun q => isHeading14 q.1)).take 10).filter
      (fun q => 5 < strLen (getTextStrip q.1))).map
    (fun q =>
      let d :=
        match q.2.find? isPOrDiv with
        | some e => takeStr (getTextStrip e) 200
        | none => ""
      { name := getTextStrip q.1
        tagline := if d = "" then "No description available" else d
        scraped_at := now
        source_url := src })

/-- The loop of `_parse_products_simple` is the filter-then-map the claim
describes. -/
theorem simpleLoop_eq_filter_map (src : String) (now : Nat) :
    ∀ l : List (Node × List Node),
      simpleLoop src now l =
        (l.filter (fun q => 5 < strLen (getTextStrip q.1))).map
          (fun q =>
            let d :=
              match q.2.find? isPOrDiv with
              | some e => takeStr (getTextStrip e) 200
              | none => ""
            { name := getTextStrip q.1
              tagline := if d = "" then "No description available" else d
              scraped_at := now
              source_url := src }) := by
  intro l
  induction l with
  | nil => rfl
  | cons q rest ih =>
      obtain ⟨t, tail⟩ := q
      by_cases h : 5 < strLen (getTextStrip t)
      · simp [simpleLoop, h, ih]
      · simp [simpleLoop, h, ih]

/-- Claim C9 as amended: the degraded strategy takes the first ten headings
of levels 1-4, keeps those with trimmed text longer than five characters, and
taglines each with the 200-character-truncated text of the next following
paragraph/div, falling back to the sentinel when that element is missing
**or its trimmed text is empty**. -/
theorem c9_amended_simple_strategy (doc : List Node) (src : String) (now : Nat) :
    parseProductsSimple doc src now = simpleStrategySpec doc src now := by
  unfold parseProductsSimple simpleStrategySpec
  exact simpleLoop_eq_filter_map src now _

/-- Claim C9 as amended, at the concrete page `c9doc`. -/
theorem c9_amended_simple_strategy_witness :
    parseProductsSimple c9doc "https://s.test/" 0 =
      simpleStrategySpec c9doc "https://s.test/" 0 :=
  c9_amended_simple_strategy c9doc "https://s.test/" 0

/-- Claim C9 is false on the code as literally stated: when the next
following paragraph exists but its trimmed text is empty, the tagline is the
sentinel, not that (empty) trimmed text. -/
theorem c9_empty_text_paragraph_gets_sentinel :
    (parseProductsSimple c9doc "https://s.test/" 0).map (fun r => r.tagline) =
      ["No description available"] ∧
    (((nodesWithTails c9doc).filter (fun q => isHeading14 q.1)).head?.bind
        (fun q => (q.2.find? isPOrDiv).map (fun e => takeStr (getTextStrip e) 200))) =
      some "" ∧
    ("" : String) ≠ "No description available" := by
  refine ⟨by decide, rfl, by decide⟩
